import Mathlib

/-!
# AutoOxyEsp32: oximeter link supervisor, valve controller and alarm

Shallow embedding of `src/AutoOxyEsp32.cpp` (and of the notification callback of
`src/ReverseEngineeredPulseOximeter.cpp`).

Modelling conventions
* The globals of the sketch are the fields of `State`; every C++ function is a
  state-passing Lean function with the same name.
* Everything the sketch does to the outside world (serial lines, GPIO writes,
  delays, BLE client calls) is appended, in program order, to the trace
  `State.out`.
* Everything the outside world decides (what `millis()` returns, whether the
  transport connects, what the service / characteristic lookups return) is an
  explicit argument.  Times are real milliseconds since boot (`Nat`); the
  sketch sees them through `millis`, the 32 bit `unsigned long` counter of the
  ESP32, and subtracts them with `subUL`, subtraction modulo `2 ^ 32`.
* `valvePosition` is a C++ `int`; it is embedded as an `Int`.  Every value it
  takes on the states considered below lies in `[0, 500]`, far inside the
  range of a 32 bit `int`, so no wrap-around is modelled for it.
* `notifyCallback` and `loop` are treated as atomic with respect to each other.
-/

namespace AutoOxyEsp32

/-- One `uint8_t`. -/
abbrev Byte := Fin 256

/-! ## Constants of the sketch -/

abbrev STEP_PIN : Nat := 18
abbrev DIR_PIN : Nat := 19
abbrev ENABLE_PIN : Nat := 21
abbrev BUZZER_RELAY_PIN : Nat := 22

/-- Microseconds between two edges of the step pulse. -/
abbrev stepDelay : Nat := 800

/-- Max steps the valve can open. -/
abbrev valveMaxSteps : Int := 500

/-- Staleness timeout in milliseconds. -/
abbrev bleTimeout : Nat := 30000

/-- Number of values of an `unsigned long` on the ESP32, `2 ^ 32`. -/
abbrev ULONG_RANGE : Nat := 4294967296

/-- Value returned by `millis()` at real time `t` (milliseconds since boot). -/
def millis (t : Nat) : Nat := t % ULONG_RANGE

/-- Subtraction of two `unsigned long` values, `a - b` modulo `2 ^ 32`. -/
def subUL (a b : Nat) : Nat := (a % ULONG_RANGE + ULONG_RANGE - b % ULONG_RANGE) % ULONG_RANGE

/-! ## Observable effects -/

/-- The lines the sketch prints on the serial port. -/
inductive Msg where
  | dataReceived            -- "Data received: "
  | hexByte (b : Byte)      -- "%02X "
  | newline
  | heartRate (hr spo2 : Byte) -- "Heart Rate: %d bpm, SpO2: %d%%"
  | tooShort                -- "Received data too short, ignoring."
  | lowSpO2                 -- "Low SpO2 detected! Increasing oxygen flow..."
  | valveFullyOpened        -- "Valve already fully opened."
  | highSpO2                -- "High SpO2 detected! Decreasing oxygen flow..."
  | valveFullyClosed        -- "Valve already fully closed."
  | normalRange             -- "SpO2 in normal range. No adjustment."
  | connecting              -- "Connecting to oximeter..."
  | failedToConnect         -- "Failed to connect!"
  | connectedToOximeter     -- "Connected to oximeter."
  | serviceNotFound         -- "Service not found!"
  | serviceFound            -- "Service found."
  | notifyCharNotFound      -- "Notify characteristic not found!"
  | notifyRegistered        -- "Notify callback registered."
  | alarmOn                 -- "Alarm ON!"
  | alarmOff                -- "Alarm OFF!"
  | initialFailed           -- "Initial connection failed."
  | tryingReconnect         -- "Disconnected or not connected. Trying to reconnect..."
  | reconnected             -- "Reconnected."
  | reconnectFailed         -- "Reconnect failed."
  | noDataTimeout           -- "No BLE data received for 30 seconds! Triggering alarm."
  deriving DecidableEq

/-- One effect on the outside world. BLE clients, services and
characteristics are named by numeric handles. -/
inductive Out where
  | serialBegin (baud : Nat)
  | serial (m : Msg)
  | pinModeOutput (pin : Nat)
  | digitalWrite (pin : Nat) (level : Bool)
  | delayMicroseconds (us : Nat)
  | delay (ms : Nat)
  | bleInit
  | bleCreateClient (c : Nat)
  | bleConnect (c : Nat)
  | bleDisconnect (c : Nat)
  | bleDelete (c : Nat)
  | bleGetService (c : Nat)
  | bleGetCharacteristic (svc : Nat)
  | bleRegisterForNotify (ch : Nat)
  deriving DecidableEq

/-! ## State -/

/-- The globals of the sketch, the level of its four output pins and the trace
of effects. `none` stands for `nullptr`. -/
structure State where
  pClient : Option Nat
  pRemoteNotifyChar : Option Nat
  connected : Bool
  currentSpO2 : Byte
  currentHR : Byte
  valvePosition : Int
  lastBleDataTime : Nat
  /-- The `static unsigned long lastAttemptTime` of `loop`. -/
  lastAttemptTime : Nat
  stepPin : Bool
  dirPin : Bool
  enablePin : Bool
  /-- Level of `BUZZER_RELAY_PIN`: the alarm is ON exactly when it is `true`. -/
  buzzerRelayPin : Bool
  out : List Out
  deriving DecidableEq

/-- State at power-up: the initialisers of the globals, all pins low. -/
def boot : State :=
  { pClient := none, pRemoteNotifyChar := none, connected := false,
    currentSpO2 := 0, currentHR := 0, valvePosition := 0,
    lastBleDataTime := 0, lastAttemptTime := 0,
    stepPin := false, dirPin := false, enablePin := false, buzzerRelayPin := false,
    out := [] }

/-- Append one effect to the trace. -/
def emit (o : Out) (s : State) : State := { s with out := s.out ++ [o] }

/-- The effects produced between state `s` and a later state `s'`. -/
def emitted (s s' : State) : List Out := s'.out.drop s.out.length

/-- Arduino `digitalWrite`: records the write and sets the level of the pin. -/
def digitalWrite (pin : Nat) (level : Bool) (s : State) : State :=
  let s := emit (.digitalWrite pin level) s
  if pin = STEP_PIN then { s with stepPin := level }
  else if pin = DIR_PIN then { s with dirPin := level }
  else if pin = ENABLE_PIN then { s with enablePin := level }
  else if pin = BUZZER_RELAY_PIN then { s with buzzerRelayPin := level }
  else s

/-! ## The sketch -/

/-- Body of the `for` loop of `rotateStepper`, run `n` times. -/
def stepPulses : Nat → State → State
  | 0, s => s
  | n + 1, s =>
    stepPulses n
      (emit (.delayMicroseconds stepDelay)
        (digitalWrite STEP_PIN false
          (emit (.delayMicroseconds stepDelay)
            (digitalWrite STEP_PIN true s))))

/-- Function `rotateStepper(open, steps)`: the loop body runs `steps` times for a positive
`steps` and not at all otherwise. -/
def rotateStepper (opening : Bool) (steps : Int) (s : State) : State :=
  stepPulses steps.toNat (digitalWrite DIR_PIN opening s)

/-- Function `soundAlarm(on)`: drives the buzzer relay pin, then prints the level. -/
def soundAlarm (level : Bool) (s : State) : State :=
  let s := digitalWrite BUZZER_RELAY_PIN level s
  if level then emit (.serial .alarmOn) s else emit (.serial .alarmOff) s

/-- Function `adjustOxygenValve()`. -/
def adjustOxygenValve (s : State) : State :=
  if s.currentSpO2.val < 98 then
    let s := emit (.serial .lowSpO2) s
    let stepsToMove : Int := min 50 (valveMaxSteps - s.valvePosition)
    if stepsToMove > 0 then
      let s := rotateStepper true stepsToMove s
      { s with valvePosition := s.valvePosition + stepsToMove }
    else
      emit (.serial .valveFullyOpened) s
  else if s.currentSpO2.val > 98 then
    let s := emit (.serial .highSpO2) s
    let stepsToMove : Int := min 50 s.valvePosition
    if stepsToMove > 0 then
      let s := rotateStepper false stepsToMove s
      { s with valvePosition := s.valvePosition - stepsToMove }
    else
      emit (.serial .valveFullyClosed) s
  else
    emit (.serial .normalRange) s

/-- The hex dump at the head of `notifyCallback`. -/
def printData (pData : List Byte) (s : State) : State :=
  emit (.serial .newline)
    (pData.foldl (fun s b => emit (.serial (.hexByte b)) s) (emit (.serial .dataReceived) s))

/-- Function `notifyCallback(_, pData, length, _)`: the payload is the list `pData`, its
length is `length`; `t` is the real time at which the callback reads
`millis()`. -/
def notifyCallback (pData : List Byte) (t : Nat) (s : State) : State :=
  let s := printData pData s
  if h : pData.length ≥ 5 then
    let s := { s with currentSpO2 := pData[4] }
    let s := { s with currentHR := pData[3] }
    let s := emit (.serial (.heartRate s.currentHR s.currentSpO2)) s
    let s := { s with lastBleDataTime := millis t }
    let s := soundAlarm false s
    adjustOxygenValve s
  else
    emit (.serial .tooShort) s

/-- What the BLE stack answers during one run of `connectToOximeter`. -/
structure ConnectEnv where
  /-- Handle returned by `BLEDevice::createClient()`. -/
  newClient : Nat
  /-- Result of `pClient->connect(oximeterAddress)`. -/
  connectOk : Bool
  /-- Result of `pClient->getService(serviceUUID)`, `none` for `nullptr`. -/
  service : Option Nat
  /-- Result of `pRemoteService->getCharacteristic(charNotifyUUID)`. -/
  characteristic : Option Nat
  /-- Result of `pRemoteNotifyChar->canNotify()`. -/
  canNotify : Bool
  /-- Real time at which the final `millis()` of the function is read. -/
  t : Nat
  deriving DecidableEq

/-- Function `disconnectCleanup()`. -/
def disconnectCleanup (s : State) : State :=
  let s := match s.pClient with
    | some c => { emit (.bleDelete c) (emit (.bleDisconnect c) s) with pClient := none }
    | none => s
  let s := { s with connected := false }
  { s with pRemoteNotifyChar := none }

/-- Function `connectToOximeter()`: returns the `bool` result and the new state. -/
def connectToOximeter (e : ConnectEnv) (s : State) : Bool × State :=
  let s := emit (.serial .connecting) s
  let s := match s.pClient with
    | some c => { emit (.bleDelete c) (emit (.bleDisconnect c) s) with pClient := none }
    | none => s
  let s := { emit (.bleCreateClient e.newClient) s with pClient := some e.newClient }
  let s := emit (.bleConnect e.newClient) s
  if !e.connectOk then
    let s := emit (.serial .failedToConnect) s
    (false, { s with connected := false })
  else
    let s := emit (.serial .connectedToOximeter) s
    let s := { s with connected := true }
    let s := emit (.bleGetService e.newClient) s
    match e.service with
    | none =>
      let s := emit (.serial .serviceNotFound) s
      (false, disconnectCleanup s)
    | some svc =>
      let s := emit (.serial .serviceFound) s
      let s := { emit (.bleGetCharacteristic svc) s with pRemoteNotifyChar := e.characteristic }
      match e.characteristic with
      | none =>
        let s := emit (.serial .notifyCharNotFound) s
        (false, disconnectCleanup s)
      | some ch =>
        let s :=
          if e.canNotify then
            emit (.serial .notifyRegistered) (emit (.bleRegisterForNotify ch) s)
          else s
        (true, { s with lastBleDataTime := millis e.t })

/-- Function `setup()`; `e` is what the BLE stack answers to the initial connect. -/
def setup (e : ConnectEnv) (s : State) : State :=
  let s := emit (.serialBegin 115200) s
  let s := emit (.pinModeOutput STEP_PIN) s
  let s := emit (.pinModeOutput DIR_PIN) s
  let s := emit (.pinModeOutput ENABLE_PIN) s
  let s := digitalWrite ENABLE_PIN false s
  let s := emit (.pinModeOutput BUZZER_RELAY_PIN) s
  let s := soundAlarm false s
  let s := emit .bleInit s
  let r := connectToOximeter e s
  if !r.1 then emit (.serial .initialFailed) r.2 else r.2

/-- What the outside world answers during one run of `loop`. -/
structure LoopEnv where
  /-- Result of `pClient->isConnected()` (read only when `connected` holds and
  `pClient` is not null). -/
  isConnected : Bool
  /-- Real time at which `now = millis()` is read (only read in the reconnect
  branch). -/
  now : Nat
  /-- Answers of the BLE stack to the reconnect attempt, if one is made. -/
  conn : ConnectEnv
  /-- Real time at which the `millis()` of the staleness check is read. -/
  t2 : Nat
  deriving DecidableEq

/-- One run of `loop()`. -/
def loop (e : LoopEnv) (s : State) : State :=
  let s :=
    if !s.connected || (s.pClient.isSome && !e.isConnected) then
      let now := millis e.now
      if subUL now s.lastAttemptTime > 5000 then
        let s := emit (.serial .tryingReconnect) s
        let r := connectToOximeter e.conn s
        let s :=
          if r.1 then soundAlarm false (emit (.serial .reconnected) r.2)
          else emit (.serial .reconnectFailed) r.2
        { s with lastAttemptTime := now }
      else s
    else s
  let s :=
    if s.connected && decide (subUL (millis e.t2) s.lastBleDataTime > bleTimeout) then
      soundAlarm true (emit (.serial .noDataTimeout) s)
    else s
  emit (.delay 100) s

/-! ## Runs -/

/-- The two things that happen after `setup()`: a notification is delivered,
or `loop()` runs once. -/
inductive Op where
  | notify (pData : List Byte) (t : Nat)
  | tick (e : LoopEnv)
  deriving DecidableEq

/-- Effect of one operation. -/
def step (s : State) : Op → State
  | .notify pData t => notifyCallback pData t s
  | .tick e => loop e s

/-- Effect of a sequence of operations, oldest first. -/
def run (s : State) (ops : List Op) : State := ops.foldl step s

end AutoOxyEsp32

namespace ReverseEngineeredPulseOximeter

open AutoOxyEsp32 (Byte Msg)

/-- Function `notifyCallback` of `ReverseEngineeredPulseOximeter.cpp`: it only prints, so
the state is the list of serial lines; the decoded pair is local to the
`if`. -/
def notifyCallback (pData : List Byte) (out : List Msg) : List Msg :=
  let out := out ++ [Msg.dataReceived]
  let out := pData.foldl (fun o b => o ++ [Msg.hexByte b]) out
  let out := out ++ [Msg.newline]
  if h : pData.length ≥ 5 then
    let spo2 := pData[4]
    let hr := pData[3]
    out ++ [Msg.heartRate hr spo2]
  else
    out

end ReverseEngineeredPulseOximeter

namespace AutoOxyEsp32

/-! ## Vocabulary of the statements

Traces, guards and concrete runs used to state the properties below. None of
them is part of the sketch. -/

/-- Trace of `n` step pulses. -/
def pulseTrace : Nat → List Out
  | 0 => []
  | n + 1 =>
    Out.digitalWrite STEP_PIN true :: Out.delayMicroseconds stepDelay ::
      Out.digitalWrite STEP_PIN false :: Out.delayMicroseconds stepDelay :: pulseTrace n

/-- Trace of the hex dump printed at the head of `notifyCallback`. -/
def dumpTrace (pData : List Byte) : List Out :=
  (Out.serial Msg.dataReceived :: pData.map (fun b => Out.serial (Msg.hexByte b))) ++
    [Out.serial Msg.newline]

/-- Feeding a list of notifications `(payload, time)` to `notifyCallback`. -/
def feed (s : State) (ps : List (List Byte × Nat)) : State :=
  run s (ps.map fun p => Op.notify p.1 p.2)

/-- The callback decoded a reading from `pData`: it printed a "Heart Rate"
line. -/
def accepts (pData : List Byte) (t : Nat) (s : State) : Prop :=
  ∃ hr spo2, Out.serial (Msg.heartRate hr spo2) ∈ emitted s (notifyCallback pData t s)

/-- The attempt described by `e` gets through: the transport connects and both
lookups return a handle. -/
def ConnectEnv.succeeds (e : ConnectEnv) : Bool :=
  e.connectOk && e.service.isSome && e.characteristic.isSome

/-- Guard of the reconnect branch of `loop`: the link is flagged down, or the
transport reports the client dead, and more than 5000 ms (modulo `2 ^ 32`)
separate `millis()` from `lastAttemptTime`. -/
def attemptDue (e : LoopEnv) (s : State) : Bool :=
  (!s.connected || (s.pClient.isSome && !e.isConnected)) &&
    decide (subUL (millis e.now) s.lastAttemptTime > 5000)

/-- Guard of the staleness branch of `loop`, on the state `s` reached after the
reconnect branch. -/
def stale (e : LoopEnv) (s : State) : Bool :=
  s.connected && decide (subUL (millis e.t2) s.lastBleDataTime > bleTimeout)

/-- The staleness branch and the final delay of `loop`. -/
def stalenessCheck (e : LoopEnv) (s : State) : State :=
  emit (Out.delay 100)
    (if stale e s then soundAlarm true (emit (Out.serial Msg.noDataTimeout) s) else s)

/-- Answers of the BLE stack to an attempt that gets through and ends at real
time `t`. -/
def linkUp (t : Nat) : ConnectEnv :=
  { newClient := 1, connectOk := true, service := some 7, characteristic := some 9,
    canNotify := true, t := t }

/-- Answers of the BLE stack to an attempt whose transport connect fails. -/
def linkDown : ConnectEnv :=
  { newClient := 2, connectOk := false, service := none, characteristic := none,
    canNotify := false, t := 0 }

/-- State after `setup()` connected at time 0 and a reading (SpO2 98) was decoded
at time 0: connected, alarm OFF, last-data timestamp 0. -/
def monitoring : State := run (setup (linkUp 0) boot) [Op.notify [0, 0, 0, 72, 98] 0]

/-- State reached from `monitoring` by a tick at 30.1 s with the link reported
alive: the staleness alarm is ON. -/
def alarming : State := run monitoring [Op.tick ⟨true, 30100, linkDown, 30100⟩]

/-- An operation during a link failure: a payload too short to be decoded, or a
tick whose connect attempt, if one is made, fails. -/
def Op.linkFailing : Op → Bool
  | .notify pData _ => decide (pData.length < 5)
  | .tick e => !e.conn.succeeds

/-- Real times of the ticks, among the ticks `es` run from state `s`, that make
a connect attempt: a tick makes one when it prints "Connecting to oximeter...",
the first line of `connectToOximeter`, and the attempt is dated by the tick's
reading of `millis()`. -/
def attemptTimes : State → List LoopEnv → List Nat
  | _, [] => []
  | s, e :: es =>
    if Out.serial Msg.connecting ∈ emitted s (loop e s) then
      e.now :: attemptTimes (loop e s) es
    else attemptTimes (loop e s) es

/-- Start times of all the connect attempts of a run: the attempt of `setup()`,
started at real time `tSetup` with answers `e0`, then those of the ticks. -/
def attemptLog (tSetup : Nat) (e0 : ConnectEnv) (es : List LoopEnv) : List Nat :=
  tSetup :: attemptTimes (setup e0 boot) es

/-! ## Properties -/

theorem emitted_append (s s' : State) (X : List Out) (h : s'.out = s.out ++ X) :
    emitted s s' = X := by
  simp [emitted, h]

theorem stepPulses_eq (n : Nat) (s : State) :
    stepPulses n s =
      { s with stepPin := if n = 0 then s.stepPin else false, out := s.out ++ pulseTrace n } := by
  induction n generalizing s with
  | zero => cases s; simp [stepPulses, pulseTrace]
  | succ n ih =>
    cases s
    simp [stepPulses, pulseTrace, ih, emit, digitalWrite]

theorem rotateStepper_eq (opening : Bool) (steps : Int) (s : State) :
    rotateStepper opening steps s =
      { s with
        dirPin := opening
        stepPin := if steps.toNat = 0 then s.stepPin else false
        out := s.out ++ Out.digitalWrite DIR_PIN opening :: pulseTrace steps.toNat } := by
  cases s
  simp [rotateStepper, stepPulses_eq, emit, digitalWrite]

theorem soundAlarm_eq (level : Bool) (s : State) :
    soundAlarm level s =
      { s with
        buzzerRelayPin := level
        out := s.out ++ [Out.digitalWrite BUZZER_RELAY_PIN level,
          Out.serial (if level then Msg.alarmOn else Msg.alarmOff)] } := by
  cases s
  cases level <;> simp [soundAlarm, emit, digitalWrite]

theorem printData_eq (pData : List Byte) (s : State) :
    printData pData s =
      { s with out := s.out ++ (Out.serial Msg.dataReceived ::
          pData.map (fun b => Out.serial (Msg.hexByte b))) ++ [Out.serial Msg.newline] } := by
  have key : ∀ (l : List Byte) (u : State),
      l.foldl (fun s b => emit (Out.serial (Msg.hexByte b)) s) u =
        { u with out := u.out ++ l.map (fun b => Out.serial (Msg.hexByte b)) } := by
    intro l
    induction l with
    | nil => intro u; cases u; simp
    | cons b l ih => intro u; rw [List.foldl_cons, ih]; cases u; simp [emit]
  rw [printData, key]
  cases s
  simp [emit]

/-- Only the valve position, the two motor pins and the trace are touched by
`adjustOxygenValve`. -/
theorem adjustOxygenValve_frame (s : State) :
    adjustOxygenValve s =
      { s with
        valvePosition := (adjustOxygenValve s).valvePosition
        stepPin := (adjustOxygenValve s).stepPin
        dirPin := (adjustOxygenValve s).dirPin
        out := (adjustOxygenValve s).out } := by
  cases s
  simp only [adjustOxygenValve]
  split_ifs <;> simp [rotateStepper_eq, emit]

theorem adjustOxygenValve_out (s : State) :
    ∃ X, (adjustOxygenValve s).out = s.out ++ X := by
  simp only [adjustOxygenValve]
  split_ifs <;> simp [rotateStepper_eq, emit]

/-- Position after `adjustOxygenValve`, for any starting position. -/
theorem adjustOxygenValve_valvePosition (s : State) :
    (adjustOxygenValve s).valvePosition =
      if s.currentSpO2.val < 98 then
        (if min 50 (valveMaxSteps - s.valvePosition) > 0 then
          s.valvePosition + min 50 (valveMaxSteps - s.valvePosition) else s.valvePosition)
      else if s.currentSpO2.val > 98 then
        (if min 50 s.valvePosition > 0 then s.valvePosition - min 50 s.valvePosition
          else s.valvePosition)
      else s.valvePosition := by
  have e1 : (emit (Out.serial Msg.lowSpO2) s).valvePosition = s.valvePosition := rfl
  have e2 : (emit (Out.serial Msg.highSpO2) s).valvePosition = s.valvePosition := rfl
  simp only [adjustOxygenValve, e1, e2]
  split_ifs <;> simp [rotateStepper_eq, emit]

theorem notifyCallback_short (pData : List Byte) (t : Nat) (s : State)
    (h : pData.length < 5) :
    notifyCallback pData t s =
      { s with out := s.out ++ dumpTrace pData ++ [Out.serial Msg.tooShort] } := by
  have h' : ¬ pData.length ≥ 5 := by omega
  cases s
  simp [notifyCallback, h', printData_eq, emit, dumpTrace]

theorem notifyCallback_long (pData : List Byte) (t : Nat) (s : State)
    (h : 5 ≤ pData.length) :
    notifyCallback pData t s =
      adjustOxygenValve
        { s with
          currentSpO2 := pData[4]
          currentHR := pData[3]
          lastBleDataTime := millis t
          buzzerRelayPin := false
          out := s.out ++ dumpTrace pData ++
            [Out.serial (Msg.heartRate pData[3] pData[4]),
             Out.digitalWrite BUZZER_RELAY_PIN false, Out.serial Msg.alarmOff] } := by
  have h' : pData.length ≥ 5 := h
  cases s
  simp [notifyCallback, h', printData_eq, emit, dumpTrace, soundAlarm_eq]

theorem notifyCallback_valvePosition_bounds (pData : List Byte) (t : Nat) (s : State)
    (h0 : 0 ≤ s.valvePosition) (h1 : s.valvePosition ≤ valveMaxSteps) :
    0 ≤ (notifyCallback pData t s).valvePosition ∧
      (notifyCallback pData t s).valvePosition ≤ valveMaxSteps := by
  by_cases h : 5 ≤ pData.length
  · rw [notifyCallback_long pData t s h, adjustOxygenValve_valvePosition]
    simp only [valveMaxSteps] at *
    split_ifs <;> constructor <;> omega
  · rw [notifyCallback_short pData t s (by omega)]
    exact ⟨h0, h1⟩

theorem feed_valvePosition_bounds (ps : List (List Byte × Nat)) (s : State)
    (h0 : 0 ≤ s.valvePosition) (h1 : s.valvePosition ≤ valveMaxSteps) :
    0 ≤ (feed s ps).valvePosition ∧ (feed s ps).valvePosition ≤ valveMaxSteps := by
  induction ps generalizing s with
  | nil => exact ⟨h0, h1⟩
  | cons p ps ih =>
    have hb := notifyCallback_valvePosition_bounds p.1 p.2 s h0 h1
    exact ih (notifyCallback p.1 p.2 s) hb.1 hb.2

/-- C1: for a position `p` in `[0, valveMaxSteps]` and any SpO2 byte, one run of
`adjustOxygenValve` leaves the position at `min (p + 50) 500` when the byte is
below 98, at `max (p - 50) 0` when it is above 98, and at `p` when it is 98. -/
theorem adjustOxygenValve_clamped_step (st : State) (p : Int) (spo2 : Byte)
    (h0 : 0 ≤ p) (h1 : p ≤ valveMaxSteps) :
    (adjustOxygenValve { st with valvePosition := p, currentSpO2 := spo2 }).valvePosition =
      if spo2.val < 98 then min (p + 50) valveMaxSteps
      else if spo2.val > 98 then max (p - 50) 0
      else p := by
  rw [adjustOxygenValve_valvePosition]
  simp only [valveMaxSteps] at *
  split_ifs <;> omega

/-- Instance of C1: position 480 and SpO2 95 give position 500. -/
theorem adjustOxygenValve_clamped_step_witness :
    (adjustOxygenValve { boot with valvePosition := 480, currentSpO2 := 95 }).valvePosition
      = 500 :=
  (adjustOxygenValve_clamped_step boot 480 95 (by decide) (by decide)).trans (by decide)

/-- C2: starting from position 0, after any finite sequence of notification
payloads (any lengths, any bytes, any times) the tracked valve position lies in
`[0, valveMaxSteps]`; three payloads carrying SpO2 90 move it to 50, 100, 150. -/
theorem valvePosition_stays_in_range (s : State) (h : s.valvePosition = 0)
    (ps : List (List Byte × Nat)) (b0 b1 b2 hr : Byte) (t1 t2 t3 : Nat) :
    (0 ≤ (feed s ps).valvePosition ∧ (feed s ps).valvePosition ≤ valveMaxSteps) ∧
    (feed s [([b0, b1, b2, hr, 90], t1)]).valvePosition = 50 ∧
    (feed s [([b0, b1, b2, hr, 90], t1), ([b0, b1, b2, hr, 90], t2)]).valvePosition = 100 ∧
    (feed s [([b0, b1, b2, hr, 90], t1), ([b0, b1, b2, hr, 90], t2),
      ([b0, b1, b2, hr, 90], t3)]).valvePosition = 150 := by
  have low : ∀ (u : State) (t : Nat), 0 ≤ u.valvePosition → u.valvePosition ≤ 450 →
      (notifyCallback [b0, b1, b2, hr, 90] t u).valvePosition = u.valvePosition + 50 := by
    intro u t h0 h1
    have h90 : ((90 : Byte) : Nat) < 98 := by decide
    rw [notifyCallback_long _ _ _ (by simp), adjustOxygenValve_valvePosition]
    simp only [valveMaxSteps, List.getElem_cons_succ, List.getElem_cons_zero, h90, if_true]
    split_ifs <;> omega
  have e1 := low s t1 (by omega) (by omega)
  have e2 := low (notifyCallback [b0, b1, b2, hr, 90] t1 s) t2 (by omega) (by omega)
  have e3 := low (notifyCallback [b0, b1, b2, hr, 90] t2
    (notifyCallback [b0, b1, b2, hr, 90] t1 s)) t3 (by omega) (by omega)
  refine ⟨feed_valvePosition_bounds ps s (by omega) (by simp [h]), ?_, ?_, ?_⟩
  · simp only [feed, run, step, List.map, List.foldl]; omega
  · simp only [feed, run, step, List.map, List.foldl]; omega
  · simp only [feed, run, step, List.map, List.foldl]; omega

/-- Instance of C2 from `boot`: a mixed sequence of payloads, and the scenario
90, 90, 90. -/
theorem valvePosition_stays_in_range_witness :
    (0 ≤ (feed boot [([1, 2, 3, 70, 90], 5), ([9], 6), ([1, 2, 3, 70, 120], 7)]).valvePosition ∧
      (feed boot [([1, 2, 3, 70, 90], 5), ([9], 6), ([1, 2, 3, 70, 120], 7)]).valvePosition
        ≤ valveMaxSteps) ∧
    (feed boot [([0, 0, 0, 72, 90], 1000)]).valvePosition = 50 ∧
    (feed boot [([0, 0, 0, 72, 90], 1000), ([0, 0, 0, 72, 90], 2000)]).valvePosition = 100 ∧
    (feed boot [([0, 0, 0, 72, 90], 1000), ([0, 0, 0, 72, 90], 2000),
      ([0, 0, 0, 72, 90], 3000)]).valvePosition = 150 :=
  valvePosition_stays_in_range boot rfl
    [([1, 2, 3, 70, 90], 5), ([9], 6), ([1, 2, 3, 70, 120], 7)] 0 0 0 72 1000 2000 3000

theorem emitted_notifyCallback_short (pData : List Byte) (t : Nat) (s : State)
    (h : pData.length < 5) :
    emitted s (notifyCallback pData t s) = dumpTrace pData ++ [Out.serial Msg.tooShort] := by
  apply emitted_append
  rw [notifyCallback_short pData t s h]
  simp

theorem emitted_notifyCallback_long (pData : List Byte) (t : Nat) (s : State)
    (h : 5 ≤ pData.length) :
    ∃ X, emitted s (notifyCallback pData t s) =
      dumpTrace pData ++ Out.serial (Msg.heartRate pData[3] pData[4]) ::
        Out.digitalWrite BUZZER_RELAY_PIN false :: Out.serial Msg.alarmOff :: X := by
  rw [notifyCallback_long pData t s h]
  obtain ⟨X, hX⟩ := adjustOxygenValve_out
    { s with
      currentSpO2 := pData[4]
      currentHR := pData[3]
      lastBleDataTime := millis t
      buzzerRelayPin := false
      out := s.out ++ dumpTrace pData ++
        [Out.serial (Msg.heartRate pData[3] pData[4]),
         Out.digitalWrite BUZZER_RELAY_PIN false, Out.serial Msg.alarmOff] }
  refine ⟨X, ?_⟩
  apply emitted_append
  rw [hX]
  simp

theorem reverse_notifyCallback_eq (pData : List Byte) (out : List Msg) :
    ReverseEngineeredPulseOximeter.notifyCallback pData out =
      out ++ Msg.dataReceived :: pData.map Msg.hexByte ++ Msg.newline ::
        (if h : 5 ≤ pData.length then [Msg.heartRate pData[3] pData[4]] else []) := by
  have key : ∀ (l : List Byte) (u : List Msg),
      l.foldl (fun o b => o ++ [Msg.hexByte b]) u = u ++ l.map Msg.hexByte := by
    intro l
    induction l with
    | nil => intro u; simp
    | cons b l ih => intro u; rw [List.foldl_cons, ih]; simp
  unfold ReverseEngineeredPulseOximeter.notifyCallback
  by_cases h : 5 ≤ pData.length
  · have h' : pData.length ≥ 5 := h
    simp [key, h, h']
  · have h' : ¬ pData.length ≥ 5 := h
    simp [key, h, h']

/-- C3: the decode step of `notifyCallback` accepts a payload exactly when its
length is at least 5; then the stored heart rate is byte 3 and the stored SpO2
is byte 4, whatever their values; a shorter payload yields no reading (the
stored pair is untouched and the payload is reported too short). The callback
of `ReverseEngineeredPulseOximeter.cpp` prints the same pair under the same
condition. -/
theorem notifyCallback_decodes_iff_length_ge_5 (pData : List Byte) (t : Nat) (s : State)
    (out : List Msg) :
    (accepts pData t s ↔ 5 ≤ pData.length) ∧
    (∀ h : 5 ≤ pData.length,
      (notifyCallback pData t s).currentHR = pData[3] ∧
      (notifyCallback pData t s).currentSpO2 = pData[4] ∧
      Out.serial (Msg.heartRate pData[3] pData[4]) ∈ emitted s (notifyCallback pData t s)) ∧
    (pData.length < 5 →
      (notifyCallback pData t s).currentHR = s.currentHR ∧
      (notifyCallback pData t s).currentSpO2 = s.currentSpO2 ∧
      Out.serial Msg.tooShort ∈ emitted s (notifyCallback pData t s)) ∧
    ReverseEngineeredPulseOximeter.notifyCallback pData out =
      out ++ Msg.dataReceived :: pData.map Msg.hexByte ++ Msg.newline ::
        (if h : 5 ≤ pData.length then [Msg.heartRate pData[3] pData[4]] else []) := by
  refine ⟨⟨?_, ?_⟩, ?_, ?_, reverse_notifyCallback_eq pData out⟩
  · rintro ⟨hr, spo2, hmem⟩
    by_contra hlen
    rw [emitted_notifyCallback_short pData t s (by omega)] at hmem
    simp [dumpTrace] at hmem
  · intro h
    obtain ⟨X, hX⟩ := emitted_notifyCallback_long pData t s h
    exact ⟨pData[3], pData[4], by rw [hX]; simp⟩
  · intro h
    obtain ⟨X, hX⟩ := emitted_notifyCallback_long pData t s h
    refine ⟨?_, ?_, by rw [hX]; simp⟩
    · rw [notifyCallback_long pData t s h, adjustOxygenValve_frame]
    · rw [notifyCallback_long pData t s h, adjustOxygenValve_frame]
  · intro h
    rw [emitted_notifyCallback_short pData t s h, notifyCallback_short pData t s h]
    simp

/-- C4: a payload shorter than 5 bytes is dropped: the stored SpO2 and heart
rate, the valve position, the last-data timestamp, the link state (flag, client
handle, characteristic reference), the retry timestamp and every pin level
(alarm and motor) are unchanged, and the only effects are serial lines, so no
motor move and no buzzer write is issued. -/
theorem notifyCallback_short_payload_dropped (pData : List Byte) (t : Nat) (s : State)
    (h : pData.length < 5) :
    (notifyCallback pData t s).currentSpO2 = s.currentSpO2 ∧
    (notifyCallback pData t s).currentHR = s.currentHR ∧
    (notifyCallback pData t s).valvePosition = s.valvePosition ∧
    (notifyCallback pData t s).lastBleDataTime = s.lastBleDataTime ∧
    (notifyCallback pData t s).connected = s.connected ∧
    (notifyCallback pData t s).pClient = s.pClient ∧
    (notifyCallback pData t s).pRemoteNotifyChar = s.pRemoteNotifyChar ∧
    (notifyCallback pData t s).lastAttemptTime = s.lastAttemptTime ∧
    (notifyCallback pData t s).buzzerRelayPin = s.buzzerRelayPin ∧
    (notifyCallback pData t s).stepPin = s.stepPin ∧
    (notifyCallback pData t s).dirPin = s.dirPin ∧
    (notifyCallback pData t s).enablePin = s.enablePin ∧
    (notifyCallback pData t s).out = s.out ++ emitted s (notifyCallback pData t s) ∧
    ∀ o ∈ emitted s (notifyCallback pData t s), ∃ m, o = Out.serial m := by
  rw [emitted_notifyCallback_short pData t s h, notifyCallback_short pData t s h]
  refine ⟨rfl, rfl, rfl, rfl, rfl, rfl, rfl, rfl, rfl, rfl, rfl, rfl, by simp, ?_⟩
  intro o ho
  simp only [dumpTrace, List.mem_append, List.mem_cons, List.mem_map, List.mem_singleton,
    List.not_mem_nil, or_false] at ho
  rcases ho with ((rfl | ⟨b, _, rfl⟩) | rfl) | rfl
  · exact ⟨_, rfl⟩
  · exact ⟨_, rfl⟩
  · exact ⟨_, rfl⟩
  · exact ⟨_, rfl⟩

/-- Instance of C4: a payload of four bytes delivered to `boot`. -/
theorem notifyCallback_short_payload_dropped_witness :
    (notifyCallback [1, 2, 3, 4] 7 boot).valvePosition = boot.valvePosition ∧
    (notifyCallback [1, 2, 3, 4] 7 boot).buzzerRelayPin = boot.buzzerRelayPin ∧
    (notifyCallback [1, 2, 3, 4] 7 boot).lastBleDataTime = boot.lastBleDataTime :=
  have w := notifyCallback_short_payload_dropped [1, 2, 3, 4] 7 boot (by decide)
  ⟨w.2.2.1, w.2.2.2.2.2.2.2.2.1, w.2.2.2.1⟩

/-- C5: after `notifyCallback` has processed a payload of length at least 5 the
alarm level is OFF (the buzzer pin was written LOW) and the last-data timestamp
is the `millis()` value of that notification, whatever the prior state and the
SpO2 byte. -/
theorem notifyCallback_forces_alarm_off (pData : List Byte) (t : Nat) (s : State)
    (h : 5 ≤ pData.length) :
    (notifyCallback pData t s).buzzerRelayPin = false ∧
    (notifyCallback pData t s).lastBleDataTime = millis t ∧
    Out.digitalWrite BUZZER_RELAY_PIN false ∈ emitted s (notifyCallback pData t s) := by
  obtain ⟨X, hX⟩ := emitted_notifyCallback_long pData t s h
  refine ⟨?_, ?_, ?_⟩
  · rw [notifyCallback_long pData t s h, adjustOxygenValve_frame]
  · rw [notifyCallback_long pData t s h, adjustOxygenValve_frame]
  · rw [hX]; simp

/-- Instance of C5: a reading with SpO2 85 delivered while the alarm is ON. -/
theorem notifyCallback_forces_alarm_off_witness :
    (notifyCallback [0, 0, 0, 60, 85] 1234
        { boot with buzzerRelayPin := true }).buzzerRelayPin = false ∧
    (notifyCallback [0, 0, 0, 60, 85] 1234
        { boot with buzzerRelayPin := true }).lastBleDataTime = 1234 :=
  have w := notifyCallback_forces_alarm_off [0, 0, 0, 60, 85] 1234
    { boot with buzzerRelayPin := true } (by decide)
  ⟨w.1, w.2.1⟩

theorem connectToOximeter_result (e : ConnectEnv) (s : State) :
    (connectToOximeter e s).1 = e.succeeds := by
  rcases e with ⟨c, ok, svc, ch, cn, t⟩
  cases ok <;> cases svc <;> cases ch <;>
    simp [connectToOximeter, ConnectEnv.succeeds]

/-- Fields of the state after `connectToOximeter`. -/
theorem connectToOximeter_state (e : ConnectEnv) (s : State) :
    (connectToOximeter e s).2 =
      { s with
        pClient := if e.connectOk && !e.succeeds then none else some e.newClient
        pRemoteNotifyChar :=
          if e.connectOk then (if e.succeeds then e.characteristic else none)
          else s.pRemoteNotifyChar
        connected := e.succeeds
        lastBleDataTime := if e.succeeds then millis e.t else s.lastBleDataTime
        out := (connectToOximeter e s).2.out } := by
  rcases e with ⟨c, ok, svc, ch, cn, t⟩
  rcases s with ⟨pc, a2, a3, a4, a5, a6, a7, a8, a9, a10, a11, a12, o⟩
  cases ok <;> cases svc <;> cases ch <;> cases cn <;> cases pc <;>
    simp [connectToOximeter, ConnectEnv.succeeds, disconnectCleanup, emit]

theorem connectToOximeter_out (e : ConnectEnv) (s : State) :
    ∃ X, (connectToOximeter e s).2.out = s.out ++ Out.serial Msg.connecting :: X := by
  rcases e with ⟨c, ok, svc, ch, cn, t⟩
  rcases s with ⟨pc, a2, a3, a4, a5, a6, a7, a8, a9, a10, a11, a12, o⟩
  cases ok <;> cases svc <;> cases ch <;> cases cn <;> cases pc <;>
    simp [connectToOximeter, disconnectCleanup, emit]

/-- C9: a connect attempt whose transport-level connect succeeds but whose
service lookup, or notify-characteristic lookup, returns none reports failure
and ends torn down: `connected` is false, the client created by the attempt was
disconnected and deleted as the last two effects of the attempt, `pClient` and
`pRemoteNotifyChar` are null, and no callback was registered. -/
theorem connectToOximeter_lookup_failure_tears_down (e : ConnectEnv) (s : State)
    (hc : e.connectOk = true) (hl : e.service = none ∨ e.characteristic = none) :
    (connectToOximeter e s).1 = false ∧
    (connectToOximeter e s).2.connected = false ∧
    (connectToOximeter e s).2.pClient = none ∧
    (connectToOximeter e s).2.pRemoteNotifyChar = none ∧
    Out.bleCreateClient e.newClient ∈ emitted s (connectToOximeter e s).2 ∧
    [Out.bleDisconnect e.newClient, Out.bleDelete e.newClient] <:+
      emitted s (connectToOximeter e s).2 ∧
    ∀ ch, Out.bleRegisterForNotify ch ∉ emitted s (connectToOximeter e s).2 := by
  rcases e with ⟨c, ok, svc, ch, cn, t⟩
  rcases s with ⟨pc, a2, a3, a4, a5, a6, a7, a8, a9, a10, a11, a12, o⟩
  simp only at hc hl
  subst hc
  have suffix : ∀ (A : List Out) (x y : Out), [x, y] <:+ A ++ [x, y] :=
    fun A x y => List.suffix_append A [x, y]
  have fields : ∀ (svc ch : Option Nat), svc = none ∨ ch = none →
      (connectToOximeter ⟨c, true, svc, ch, cn, t⟩
        ⟨pc, a2, a3, a4, a5, a6, a7, a8, a9, a10, a11, a12, o⟩).1 = false ∧
      (connectToOximeter ⟨c, true, svc, ch, cn, t⟩
        ⟨pc, a2, a3, a4, a5, a6, a7, a8, a9, a10, a11, a12, o⟩).2.connected = false ∧
      (connectToOximeter ⟨c, true, svc, ch, cn, t⟩
        ⟨pc, a2, a3, a4, a5, a6, a7, a8, a9, a10, a11, a12, o⟩).2.pClient = none ∧
      (connectToOximeter ⟨c, true, svc, ch, cn, t⟩
        ⟨pc, a2, a3, a4, a5, a6, a7, a8, a9, a10, a11, a12, o⟩).2.pRemoteNotifyChar = none := by
    intro svc ch h
    rw [connectToOximeter_result, connectToOximeter_state]
    rcases h with rfl | rfl <;> cases svc <;> simp [ConnectEnv.succeeds]
  obtain ⟨f1, f2, f3, f4⟩ := fields svc ch hl
  refine ⟨f1, f2, f3, f4, ?_⟩
  cases svc with
  | none =>
    rw [emitted_append _ _ ((Out.serial Msg.connecting ::
        (pc.toList.flatMap fun c0 => [Out.bleDisconnect c0, Out.bleDelete c0])) ++
        [Out.bleCreateClient c, Out.bleConnect c, Out.serial Msg.connectedToOximeter,
         Out.bleGetService c, Out.serial Msg.serviceNotFound] ++
        [Out.bleDisconnect c, Out.bleDelete c])
      (by cases pc <;> simp [connectToOximeter, disconnectCleanup, emit])]
    refine ⟨by simp, suffix _ _ _, by cases pc <;> simp⟩
  | some sv =>
    have hch : ch = none := by simpa using hl
    subst hch
    rw [emitted_append _ _ ((Out.serial Msg.connecting ::
        (pc.toList.flatMap fun c0 => [Out.bleDisconnect c0, Out.bleDelete c0])) ++
        [Out.bleCreateClient c, Out.bleConnect c, Out.serial Msg.connectedToOximeter,
         Out.bleGetService c, Out.serial Msg.serviceFound, Out.bleGetCharacteristic sv,
         Out.serial Msg.notifyCharNotFound] ++
        [Out.bleDisconnect c, Out.bleDelete c])
      (by cases pc <;> simp [connectToOximeter, disconnectCleanup, emit])]
    refine ⟨by simp, suffix _ _ _, by cases pc <;> simp⟩

/-- Instance of C9: the service lookup returns none while an older client is
held. -/
theorem connectToOximeter_lookup_failure_tears_down_witness :
    (connectToOximeter ⟨2, true, none, some 9, true, 100⟩
        { boot with pClient := some 1, connected := true }).1 = false ∧
    (connectToOximeter ⟨2, true, none, some 9, true, 100⟩
        { boot with pClient := some 1, connected := true }).2.connected = false ∧
    (connectToOximeter ⟨2, true, none, some 9, true, 100⟩
        { boot with pClient := some 1, connected := true }).2.pClient = none :=
  have w := connectToOximeter_lookup_failure_tears_down ⟨2, true, none, some 9, true, 100⟩
    { boot with pClient := some 1, connected := true } rfl (Or.inl rfl)
  ⟨w.1, w.2.1, w.2.2.1⟩

theorem loop_of_not_due (e : LoopEnv) (s : State) (h : attemptDue e s = false) :
    loop e s = stalenessCheck e s := by
  simp only [attemptDue, Bool.and_eq_false_iff, decide_eq_false_iff_not] at h
  unfold loop stalenessCheck stale
  rcases h with h | h
  · simp [h]
  · simp only [h, if_false]
    split_ifs <;> rfl

theorem loop_of_due (e : LoopEnv) (s : State) (h : attemptDue e s = true) :
    loop e s =
      stalenessCheck e
        { (if e.conn.succeeds then
            soundAlarm false (emit (Out.serial Msg.reconnected)
              (connectToOximeter e.conn (emit (Out.serial Msg.tryingReconnect) s)).2)
          else
            emit (Out.serial Msg.reconnectFailed)
              (connectToOximeter e.conn (emit (Out.serial Msg.tryingReconnect) s)).2) with
          lastAttemptTime := millis e.now } := by
  simp only [attemptDue, Bool.and_eq_true, decide_eq_true_eq] at h
  unfold loop stalenessCheck stale
  simp only [h.1, h.2, if_true, connectToOximeter_result]

theorem connectToOximeter_connected (e : ConnectEnv) (s : State) :
    (connectToOximeter e s).2.connected = e.succeeds := by
  rw [connectToOximeter_state]

theorem connectToOximeter_lastBleDataTime (e : ConnectEnv) (s : State) :
    (connectToOximeter e s).2.lastBleDataTime =
      if e.succeeds then millis e.t else s.lastBleDataTime := by
  rw [connectToOximeter_state]

theorem connectToOximeter_buzzerRelayPin (e : ConnectEnv) (s : State) :
    (connectToOximeter e s).2.buzzerRelayPin = s.buzzerRelayPin := by
  rw [connectToOximeter_state]

theorem connectToOximeter_lastAttemptTime (e : ConnectEnv) (s : State) :
    (connectToOximeter e s).2.lastAttemptTime = s.lastAttemptTime := by
  rw [connectToOximeter_state]

theorem stalenessCheck_buzzerRelayPin (e : LoopEnv) (s : State) :
    (stalenessCheck e s).buzzerRelayPin = (stale e s || s.buzzerRelayPin) := by
  unfold stalenessCheck
  cases h : stale e s <;> simp [soundAlarm_eq, emit]

theorem stalenessCheck_frame (e : LoopEnv) (s : State) :
    stalenessCheck e s =
      { s with
        buzzerRelayPin := (stalenessCheck e s).buzzerRelayPin
        out := (stalenessCheck e s).out } := by
  unfold stalenessCheck
  cases s
  cases h : stale e _ <;> simp [soundAlarm_eq, emit]

/-- Alarm level after one tick. -/
theorem loop_buzzerRelayPin (e : LoopEnv) (s : State) :
    (loop e s).buzzerRelayPin =
      if attemptDue e s then
        (if e.conn.succeeds then decide (subUL (millis e.t2) (millis e.conn.t) > bleTimeout)
          else s.buzzerRelayPin)
      else (stale e s || s.buzzerRelayPin) := by
  cases h : attemptDue e s
  · rw [loop_of_not_due e s h, stalenessCheck_buzzerRelayPin]; simp
  · rw [loop_of_due e s h, stalenessCheck_buzzerRelayPin]
    cases hs : e.conn.succeeds <;>
      simp [stale, connectToOximeter_connected, connectToOximeter_lastBleDataTime,
        connectToOximeter_buzzerRelayPin, soundAlarm_eq, emit, hs]

/-- Link flag after one tick. -/
theorem loop_connected (e : LoopEnv) (s : State) :
    (loop e s).connected = if attemptDue e s then e.conn.succeeds else s.connected := by
  cases h : attemptDue e s
  · rw [loop_of_not_due e s h, stalenessCheck_frame]; simp
  · rw [loop_of_due e s h, stalenessCheck_frame]
    cases hs : e.conn.succeeds <;>
      simp [connectToOximeter_connected, connectToOximeter_lastBleDataTime, soundAlarm_eq,
        emit, hs]

/-- Retry timestamp after one tick. -/
theorem loop_lastAttemptTime (e : LoopEnv) (s : State) :
    (loop e s).lastAttemptTime =
      if attemptDue e s then millis e.now else s.lastAttemptTime := by
  cases h : attemptDue e s
  · rw [loop_of_not_due e s h, stalenessCheck_frame]; simp
  · rw [loop_of_due e s h, stalenessCheck_frame]; simp

/-- Last-data timestamp after one tick. -/
theorem loop_lastBleDataTime (e : LoopEnv) (s : State) :
    (loop e s).lastBleDataTime =
      if attemptDue e s && e.conn.succeeds then millis e.conn.t else s.lastBleDataTime := by
  cases h : attemptDue e s
  · rw [loop_of_not_due e s h, stalenessCheck_frame]; simp
  · rw [loop_of_due e s h, stalenessCheck_frame]
    cases hs : e.conn.succeeds <;>
      simp [connectToOximeter_connected, connectToOximeter_lastBleDataTime, soundAlarm_eq,
        emit, hs]

theorem stalenessCheck_out (e : LoopEnv) (s : State) :
    (stalenessCheck e s).out =
      s.out ++ (if stale e s then
        [Out.serial Msg.noDataTimeout, Out.digitalWrite BUZZER_RELAY_PIN true,
          Out.serial Msg.alarmOn, Out.delay 100]
        else [Out.delay 100]) := by
  unfold stalenessCheck
  cases h : stale e s <;> simp [soundAlarm_eq, emit]

/-- A tick prints "Connecting to oximeter...", the first line of
`connectToOximeter`, exactly when the guard of the reconnect branch holds. -/
theorem connecting_mem_emitted_loop (e : LoopEnv) (s : State) :
    Out.serial Msg.connecting ∈ emitted s (loop e s) ↔ attemptDue e s = true := by
  cases h : attemptDue e s
  · rw [loop_of_not_due e s h]
    rw [emitted_append _ _ _ (stalenessCheck_out e s)]
    cases stale e s <;> simp
  · rw [loop_of_due e s h]
    obtain ⟨X, hX⟩ := connectToOximeter_out e.conn (emit (Out.serial Msg.tryingReconnect) s)
    simp only [iff_true]
    have hW : ∃ W, ({ (if e.conn.succeeds then
            soundAlarm false (emit (Out.serial Msg.reconnected)
              (connectToOximeter e.conn (emit (Out.serial Msg.tryingReconnect) s)).2)
          else
            emit (Out.serial Msg.reconnectFailed)
              (connectToOximeter e.conn (emit (Out.serial Msg.tryingReconnect) s)).2) with
          lastAttemptTime := millis e.now } : State).out =
        s.out ++ Out.serial Msg.tryingReconnect :: Out.serial Msg.connecting :: W := by
      simp only [emit] at hX
      cases hs : e.conn.succeeds
      · exact ⟨X ++ [Out.serial Msg.reconnectFailed], by simp [emit, hX]⟩
      · exact ⟨X ++ [Out.serial Msg.reconnected, Out.digitalWrite BUZZER_RELAY_PIN false,
          Out.serial Msg.alarmOff], by simp [soundAlarm_eq, emit, hX]⟩
    obtain ⟨W, hW⟩ := hW
    have hout := stalenessCheck_out e ({ (if e.conn.succeeds then
            soundAlarm false (emit (Out.serial Msg.reconnected)
              (connectToOximeter e.conn (emit (Out.serial Msg.tryingReconnect) s)).2)
          else
            emit (Out.serial Msg.reconnectFailed)
              (connectToOximeter e.conn (emit (Out.serial Msg.tryingReconnect) s)).2) with
          lastAttemptTime := millis e.now } : State)
    rw [hW, List.append_assoc] at hout
    rw [emitted_append _ _ _ hout]
    simp

/-- C7, as stated, fails: `alarming` is reached from `setup()` by a decoded
notification and a tick and has the alarm ON; a tick in which the transport
reports the client dead and the reconnect succeeds turns the alarm OFF. -/
theorem alarm_cleared_by_reconnect_counterexample :
    alarming = run (setup (linkUp 0) boot)
      [Op.notify [0, 0, 0, 72, 98] 0, Op.tick ⟨true, 30100, linkDown, 30100⟩] ∧
    alarming.buzzerRelayPin = true ∧
    (step alarming (Op.tick ⟨false, 30200, linkUp 30250, 30300⟩)).buzzerRelayPin = false := by
  decide

/-- C7, amended: with the alarm ON, a payload shorter than 5 bytes leaves it
ON, `connectToOximeter` on its own leaves it ON, and a `loop()` tick turns it
OFF exactly when the tick makes a connect attempt, the attempt succeeds, and no
more than 30000 ms separate the staleness check from the end of the attempt;
every other tick (no attempt, or a failed attempt) leaves it ON. -/
theorem alarm_latched_until_reading_or_reconnect (s : State)
    (ha : s.buzzerRelayPin = true) (e : LoopEnv) (pData : List Byte) (t : Nat) :
    (pData.length < 5 → (notifyCallback pData t s).buzzerRelayPin = true) ∧
    (connectToOximeter e.conn s).2.buzzerRelayPin = true ∧
    ((loop e s).buzzerRelayPin = false ↔
      attemptDue e s = true ∧ e.conn.succeeds = true ∧
        subUL (millis e.t2) (millis e.conn.t) ≤ bleTimeout) ∧
    (attemptDue e s = false ∨ e.conn.succeeds = false → (loop e s).buzzerRelayPin = true) := by
  have key : (loop e s).buzzerRelayPin = false ↔
      attemptDue e s = true ∧ e.conn.succeeds = true ∧
        subUL (millis e.t2) (millis e.conn.t) ≤ bleTimeout := by
    rw [loop_buzzerRelayPin]
    cases hd : attemptDue e s <;> cases hs : e.conn.succeeds <;> simp [ha]
  refine ⟨?_, ?_, key, ?_⟩
  · intro h
    rw [notifyCallback_short pData t s h]
    exact ha
  · rw [connectToOximeter_buzzerRelayPin, ha]
  · intro h
    cases hb : (loop e s).buzzerRelayPin
    · have := key.1 hb
      rcases h with h | h <;> simp_all
    · rfl

/-- Instance of amended C7 with the alarm ON: a two-byte payload and a tick whose
reconnect attempt fails both leave it ON. -/
theorem alarm_latched_until_reading_or_reconnect_witness :
    (notifyCallback [1, 2] 30200 alarming).buzzerRelayPin = true ∧
    (loop ⟨false, 30200, linkDown, 30300⟩ alarming).buzzerRelayPin = true :=
  have w := alarm_latched_until_reading_or_reconnect alarming (by decide)
    ⟨false, 30200, linkDown, 30300⟩ [1, 2] 30200
  ⟨w.1 (by decide), w.2.2.2 (Or.inr (by decide))⟩

/-- C8: the code does not do what the claim, and the sketch's own comment on
`bleTimeout` ("30 seconds timeout without data triggers reconnect and alarm"),
require. Failing input: `setup()` connects at time 0 and a reading is decoded
at 1 s; from then on the transport reports the client dead, every connect
attempt fails and no notification arrives. The tick at 6 s makes a failed
attempt, which sets `connected` to false; the ticks at 40 s and at 100 s, both
more than 30 s after the last contact, skip the staleness check and leave the
alarm OFF, where the claim requires it ON. -/
theorem link_failure_leaves_alarm_off :
    linkDown.succeeds = false ∧
    (1000 : Nat) + 30000 < 40000 ∧
    (run (setup (linkUp 0) boot)
      [Op.notify [0, 0, 0, 72, 98] 1000]).lastBleDataTime = 1000 ∧
    (run (setup (linkUp 0) boot)
      [Op.notify [0, 0, 0, 72, 98] 1000,
       Op.tick ⟨false, 6000, linkDown, 6000⟩]).connected = false ∧
    (run (setup (linkUp 0) boot)
      [Op.notify [0, 0, 0, 72, 98] 1000,
       Op.tick ⟨false, 6000, linkDown, 6000⟩,
       Op.tick ⟨false, 40000, linkDown, 40000⟩]).buzzerRelayPin = false ∧
    (run (setup (linkUp 0) boot)
      [Op.notify [0, 0, 0, 72, 98] 1000,
       Op.tick ⟨false, 6000, linkDown, 6000⟩,
       Op.tick ⟨false, 40000, linkDown, 40000⟩,
       Op.tick ⟨false, 100000, linkDown, 100000⟩]).buzzerRelayPin = false := by
  decide

/-- Extent of the defect behind C8: with `connected` false, an operation of a
failing link leaves `connected` false and does not touch the alarm level. -/
theorem step_linkFailing (s : State) (op : Op) (hc : s.connected = false)
    (h : op.linkFailing = true) :
    (step s op).connected = false ∧ (step s op).buzzerRelayPin = s.buzzerRelayPin := by
  cases op with
  | notify pData t =>
    simp only [Op.linkFailing, decide_eq_true_eq] at h
    simp only [step]
    rw [notifyCallback_short pData t s h]
    exact ⟨hc, rfl⟩
  | tick e =>
    simp only [Op.linkFailing, Bool.not_eq_true'] at h
    simp only [step]
    rw [loop_connected, loop_buzzerRelayPin]
    cases hd : attemptDue e s <;> simp [h, hc, stale]

/-- Extent of the defect behind C8: with `connected` false, no run of operations
of a failing link ever changes the alarm level, whatever the clock reads. -/
theorem run_linkFailing (ops : List Op) (s : State) (hc : s.connected = false)
    (h : ∀ op ∈ ops, op.linkFailing = true) :
    (run s ops).connected = false ∧ (run s ops).buzzerRelayPin = s.buzzerRelayPin := by
  induction ops generalizing s with
  | nil => exact ⟨hc, rfl⟩
  | cons op ops ih =>
    have h1 := step_linkFailing s op hc (h op (List.mem_cons_self _ _))
    have h2 := ih (step s op) h1.1 (fun o ho => h o (List.mem_cons_of_mem _ ho))
    exact ⟨h2.1, h2.2.trans h1.2⟩

theorem subUL_millis_le (a b : Nat) (h : b ≤ a) : subUL (millis a) (millis b) ≤ a - b := by
  unfold subUL millis ULONG_RANGE
  omega

theorem attemptTimes_chain (es : List LoopEnv) (s : State) (tl : Nat)
    (hl : s.lastAttemptTime = millis tl) (hle : ∀ e ∈ es, tl ≤ e.now)
    (hs : List.Pairwise (· ≤ ·) (es.map (·.now))) :
    List.Chain (fun a b => a + 5000 < b) tl (attemptTimes s es) := by
  induction es generalizing s tl with
  | nil => exact List.Chain.nil
  | cons e es ih =>
    rw [List.map_cons, List.pairwise_cons] at hs
    have htl : tl ≤ e.now := hle e (List.mem_cons_self _ _)
    unfold attemptTimes
    by_cases hd : attemptDue e s = true
    · rw [if_pos ((connecting_mem_emitted_loop e s).2 hd)]
      have hgt : subUL (millis e.now) (millis tl) > 5000 := by
        have := hd
        simp only [attemptDue, Bool.and_eq_true, decide_eq_true_eq, hl] at this
        exact this.2
      have hbound := subUL_millis_le e.now tl htl
      refine List.Chain.cons (by omega) ?_
      apply ih
      · rw [loop_lastAttemptTime, if_pos hd]
      · intro e' he'
        exact hs.1 e'.now (List.mem_map_of_mem _ he')
      · exact hs.2
    · rw [if_neg (fun hmem => hd ((connecting_mem_emitted_loop e s).1 hmem))]
      apply ih
      · rw [loop_lastAttemptTime, if_neg hd, hl]
      · intro e' he'
        exact hle e' (List.mem_cons_of_mem _ he')
      · exact hs.2

theorem setup_lastAttemptTime (e0 : ConnectEnv) (s : State) :
    (setup e0 s).lastAttemptTime = s.lastAttemptTime := by
  have h1 : ∀ x : State,
      (if !(connectToOximeter e0 x).1 then
          emit (Out.serial Msg.initialFailed) (connectToOximeter e0 x).2
        else (connectToOximeter e0 x).2).lastAttemptTime = x.lastAttemptTime := by
    intro x
    split_ifs <;> simp [emit, connectToOximeter_lastAttemptTime]
  simp only [setup, h1]
  simp [soundAlarm_eq, emit, digitalWrite]

theorem chain_gap_lower (l : List Nat) (a : Nat)
    (h : List.Chain (fun a b => a + 5000 < b) a l) : ∀ t ∈ l, a + 5000 < t := by
  induction l generalizing a with
  | nil => intro t ht; simp at ht
  | cons b l ih =>
    rw [List.chain_cons] at h
    intro t ht
    rcases List.mem_cons.1 ht with rfl | ht
    · exact h.1
    · have := ih b h.2 t ht
      omega

/-- C10, as stated, fails for the attempt made by `setup()`: it starts at 1 s
and fails; the first tick, at 5001 ms, starts the next attempt 4001 ms later. -/
theorem setup_attempt_uncounted_counterexample :
    (connectToOximeter linkDown boot).1 = false ∧
    attemptLog 1000 linkDown [⟨false, 5001, linkDown, 5001⟩] = [1000, 5001] ∧
    ¬ List.Chain' (fun a b => a + 5000 ≤ b)
      (attemptLog 1000 linkDown [⟨false, 5001, linkDown, 5001⟩]) := by
  have hlog : attemptLog 1000 linkDown [⟨false, 5001, linkDown, 5001⟩] = [1000, 5001] := by
    decide
  refine ⟨by decide, hlog, ?_⟩
  rw [hlog]
  simp

/-- C10, amended: the 5 s cadence governs the attempts made by `loop()`. In a
run of `setup()` followed by ticks whose readings of the clock do not decrease,
every attempt made by a tick starts more than 5000 ms after boot and more than
5000 ms after the previous attempt made by a tick, whether that one failed or
not; the attempt made by `setup()` is not counted. A tick makes an attempt only
when `connected` is false or the client exists and the transport reports it
dead. -/
theorem loop_reconnect_cadence (e0 : ConnectEnv) (es : List LoopEnv)
    (hmono : List.Pairwise (· ≤ ·) (es.map (·.now))) (s : State) (e : LoopEnv) :
    List.Chain' (fun a b => a + 5000 < b) (attemptTimes (setup e0 boot) es) ∧
    (∀ t ∈ attemptTimes (setup e0 boot) es, 5000 < t) ∧
    (Out.serial Msg.connecting ∈ emitted s (loop e s) →
      (s.connected = false ∨ (s.pClient.isSome = true ∧ e.isConnected = false)) ∧
        5000 < subUL (millis e.now) s.lastAttemptTime) := by
  have hchain := attemptTimes_chain es (setup e0 boot) 0
    (by rw [setup_lastAttemptTime]; rfl) (fun _ _ => Nat.zero_le _) hmono
  refine ⟨?_, ?_, ?_⟩
  · cases hat : attemptTimes (setup e0 boot) es with
    | nil => exact List.chain'_nil
    | cons a l =>
      rw [hat] at hchain
      exact (List.chain_cons.1 hchain).2
  · intro t ht
    have := chain_gap_lower _ 0 hchain t ht
    omega
  · intro hmem
    have hd := (connecting_mem_emitted_loop e s).1 hmem
    simp only [attemptDue, Bool.and_eq_true, decide_eq_true_eq, Bool.or_eq_true,
      Bool.not_eq_true'] at hd
    exact hd

/-- Instance of amended C10: ticks at 5001, 7000 and 10002 ms after a failed
`setup()`; the attempts are those of 5001 and 10002. -/
theorem loop_reconnect_cadence_witness :
    List.Chain' (fun a b => a + 5000 < b)
      (attemptTimes (setup linkDown boot)
        [⟨false, 5001, linkDown, 5001⟩, ⟨false, 7000, linkDown, 7000⟩,
         ⟨false, 10002, linkDown, 10002⟩]) ∧
    (∀ t ∈ attemptTimes (setup linkDown boot)
        [⟨false, 5001, linkDown, 5001⟩, ⟨false, 7000, linkDown, 7000⟩,
         ⟨false, 10002, linkDown, 10002⟩], 5000 < t) :=
  have w := loop_reconnect_cadence linkDown
    [⟨false, 5001, linkDown, 5001⟩, ⟨false, 7000, linkDown, 7000⟩,
     ⟨false, 10002, linkDown, 10002⟩] (by simp) boot ⟨false, 0, linkDown, 0⟩
  ⟨w.1, w.2.1⟩

end AutoOxyEsp32
